import Mathlib

/-!
Shallow embedding of the subdomain-resolution and endpoint-readiness engine
of the formation gateway (source: src/routes/apps.py).

Modelled functions:
- `check_vice_url_ready` (the URL Readiness Prober, apps.py lines 36-125):
  cache lookup, HEAD/GET probing with exponential backoff, cache write.
- `get_analysis_subdomain` (the Subdomain Resolver, apps.py lines 128-189):
  external-id lookup, then a bounded retry loop over the async-data endpoint.
- `get_app_status` (the Status Aggregator, apps.py lines 848-900):
  job-record fetch, resolver invocation, probe invocation, response assembly.

Network effects are modelled by oracle environments (`ProbeEnv`, `ResolverEnv`,
`StatusEnv`) that fix the outcome of every external call, and each modelled
function additionally reports the observable side effects the spec talks
about: number of HTTP calls issued, the list of sleep durations (in
milliseconds; the source's `0.5 * 2**attempt` seconds is `500 * 2^attempt`
milliseconds, and `retry_delay` seconds is given in milliseconds), the final
cache state and the wall clock at return.  Wall-clock instants are `Int`
milliseconds.  Exceptions raised by the Python code are modelled as explicit
outcome constructors; the modelled functions are total exactly because every
exception in the source is caught by a handler inside the modelled region.
-/

namespace Formation

/-- Outcome of one HTTP request (HEAD or GET) issued by the prober, as
distinguished by the handlers in `check_vice_url_ready`: a response with a
status code, an `httpx.ConnectError`, an `httpx.TimeoutException`, or any
other exception (carrying `str(e)` and `type(e).__name__`). -/
inductive HttpOutcome where
  | response (status_code : Nat)
  | connectError (msg : String)
  | timeoutExc
  | otherExc (msg : String) (ty : String)
deriving DecidableEq, Repr

/-- An exception escaping one probe attempt, as classified by the outer
handlers of the attempt loop (`except httpx.TimeoutException` vs
`except Exception`). -/
inductive Exc where
  | timeout
  | connect (msg : String)
  | other (msg : String) (ty : String)
deriving DecidableEq, Repr

/-- Result of one probe attempt: a final response, or an exception that
propagates to the attempt loop's handlers. -/
inductive AttemptOut where
  | ok (status_code : Nat)
  | exc (e : Exc)
deriving DecidableEq, Repr

/-- How a bare `await client.get(url)` call turns into the attempt's result:
a response becomes the final response, an exception propagates. -/
def getResult : HttpOutcome → AttemptOut
  | .response s => .ok s
  | .connectError m => .exc (.connect m)
  | .timeoutExc => .exc .timeout
  | .otherExc m t => .exc (.other m t)

/-- One probe attempt's inner try block (apps.py lines 69-79): HEAD first;
on a 404/405 response fall back to GET; an `httpx.ConnectError` raised inside
the block is re-raised; any other exception from the block triggers a GET
from the handler.  `hd` is the HEAD outcome, `g1` the outcome of the first
GET issued in this attempt (if any), `g2` the outcome of a second GET (issued
only when the 404/405-fallback GET itself fails for a non-connection reason,
which lands in the `except Exception` handler).  Returns the attempt result
together with the number of HTTP requests issued. -/
def attemptEval (hd g1 g2 : HttpOutcome) : AttemptOut × Nat :=
  match hd with
  | .response s =>
    if s = 404 ∨ s = 405 then
      match g1 with
      | .response s1 => (.ok s1, 2)
      | .connectError m => (.exc (.connect m), 2)
      | .timeoutExc => (getResult g2, 3)
      | .otherExc _ _ => (getResult g2, 3)
    else (.ok s, 1)
  | .connectError m => (.exc (.connect m), 1)
  | .timeoutExc => (getResult g1, 2)
  | .otherExc _ _ => (getResult g1, 2)

/-- The `details` dictionary recorded by the prober, one constructor per
dictionary shape occurring in the source: a successful attempt
(`status_code`, `response_time_ms`, `attempt`), timeout exhaustion
(`error="timeout"`, `timeout_seconds`, `attempt`), other-exception exhaustion
(`error`, `error_type`, `attempt`), and the defensive fallthrough
(`error="max_retries_exceeded"`, `retries`). -/
inductive Details where
  | success (status_code : Nat) (response_time_ms : Int) (attempt : Nat)
  | timeoutErr (timeout_seconds : Int) (attempt : Nat)
  | otherErr (error : String) (error_type : String) (attempt : Nat)
  | maxRetriesExceeded (retries : Nat)
deriving DecidableEq, Repr

/-- The `error` key of the details dictionary, when present. -/
def Details.errorField : Details → Option String
  | .success _ _ _ => none
  | .timeoutErr _ _ => some "timeout"
  | .otherErr e _ _ => some e
  | .maxRetriesExceeded _ => some "max_retries_exceeded"

/-- The `attempt` key of the details dictionary, when present. -/
def Details.attemptField : Details → Option Nat
  | .success _ _ a => some a
  | .timeoutErr _ a => some a
  | .otherErr _ _ a => some a
  | .maxRetriesExceeded _ => none

/-- The `status_code` key of the details dictionary, when present. -/
def Details.statusCodeField : Details → Option Nat
  | .success s _ _ => some s
  | _ => none

/-- The `timeout_seconds` key of the details dictionary, when present. -/
def Details.timeoutSecondsField : Details → Option Int
  | .timeoutErr t _ => some t
  | _ => none

/-- One entry of the module-level `_vice_url_cache` dictionary:
`(timestamp, ready, details)`. -/
structure CacheEntry where
  timestamp : Int
  ready : Bool
  details : Details
deriving DecidableEq, Repr

/-- The `_vice_url_cache` dictionary, as an association list keyed by URL. -/
abbrev Cache := List (String × CacheEntry)

/-- Dictionary lookup `url in _vice_url_cache` / `_vice_url_cache[url]`. -/
def cacheLookup : Cache → String → Option CacheEntry
  | [], _ => none
  | (k, v) :: rest, url => if k = url then some v else cacheLookup rest url

/-- Dictionary assignment `_vice_url_cache[url] = entry`, overwriting any
prior entry for the same URL. -/
def cacheInsert : Cache → String → CacheEntry → Cache
  | [], url, e => [(url, e)]
  | (k, v) :: rest, url, e =>
    if k = url then (url, e) :: rest else (k, v) :: cacheInsert rest url e

/-- The configuration values consumed by the modelled engine (`config.*` in
the source).  Times are in milliseconds. -/
structure Config where
  vice_url_check_cache_ttl : Int
  vice_url_check_retries : Nat
  vice_url_check_timeout : Int
  vice_domain : String
deriving DecidableEq, Repr

/-- Oracle for the prober's network interactions: for each attempt index, the
outcome of the HEAD request, of the first and (possible) second GET request,
and the wall-clock duration of the attempt in milliseconds. -/
structure ProbeEnv where
  head : Nat → HttpOutcome
  get1 : Nat → HttpOutcome
  get2 : Nat → HttpOutcome
  attemptDur : Nat → Int

/-- Everything observable about one `check_vice_url_ready` invocation: the
returned `(ready, details)` pair, the cache state after the call, the number
of HTTP requests issued, the inter-attempt sleep durations in order, and the
wall clock at return. -/
structure ProbeRun where
  ready : Bool
  details : Details
  cache : Cache
  netCalls : Nat
  sleeps : List Int
  endTime : Int
deriving DecidableEq, Repr

/-- The `details` dictionary built by the attempt loop's exception handlers on
the last allowed attempt (apps.py lines 102-106 and 114-118). -/
def excDetails (cfg : Config) (e : Exc) (attempt : Nat) : Details :=
  match e with
  | .timeout => .timeoutErr cfg.vice_url_check_timeout attempt
  | .connect m => .otherErr m "ConnectError" attempt
  | .other m t => .otherErr m t attempt

/-- The attempt loop `for attempt in range(retries)` of `check_vice_url_ready`
(apps.py lines 60-125).  `fuel` counts the remaining iterations and `attempt`
is the current loop index, so the loop body runs with
`attempt = retries - fuel`; `entryTime` is the `current_time` captured once at
function entry, which is what every cache write stores; `clock` is the actual
wall clock, advanced by attempt durations and backoff sleeps.  The `fuel = 0`
case is the defensive fallthrough after the loop (apps.py lines 122-125). -/
def probeGo (cfg : Config) (env : ProbeEnv) (url : String) (entryTime : Int) :
    Nat → Nat → Cache → Int → ProbeRun
  | 0, _, cache, clock =>
    let details := Details.maxRetriesExceeded cfg.vice_url_check_retries
    ⟨false, details, cacheInsert cache url ⟨entryTime, false, details⟩, 0, [], clock⟩
  | fuel + 1, attempt, cache, clock =>
    let outcome := attemptEval (env.head attempt) (env.get1 attempt) (env.get2 attempt)
    let dur := env.attemptDur attempt
    match outcome.1 with
    | .ok s =>
      let ready := decide (200 ≤ s) && decide (s < 400)
      let details := Details.success s dur (attempt + 1)
      ⟨ready, details, cacheInsert cache url ⟨entryTime, ready, details⟩,
        outcome.2, [], clock + dur⟩
    | .exc e =>
      if attempt < cfg.vice_url_check_retries - 1 then
        let d : Int := 500 * 2 ^ attempt
        let run := probeGo cfg env url entryTime fuel (attempt + 1) cache (clock + dur + d)
        ⟨run.ready, run.details, run.cache, outcome.2 + run.netCalls,
          d :: run.sleeps, run.endTime⟩
      else
        let details := excDetails cfg e (attempt + 1)
        ⟨false, details, cacheInsert cache url ⟨entryTime, false, details⟩,
          outcome.2, [], clock + dur⟩

/-- The URL Readiness Prober `check_vice_url_ready` (apps.py lines 36-125):
cache lookup by exact URL with TTL comparison `current_time - cached_time <
config.vice_url_check_cache_ttl`, then the attempt loop on a miss or a stale
entry.  `now` is `time.time()` at entry (milliseconds). -/
def check_vice_url_ready (cfg : Config) (env : ProbeEnv) (cache : Cache)
    (now : Int) (url : String) : ProbeRun :=
  match cacheLookup cache url with
  | some entry =>
    if now - entry.timestamp < cfg.vice_url_check_cache_ttl then
      ⟨entry.ready, entry.details, cache, 0, [], now⟩
    else
      probeGo cfg env url now cfg.vice_url_check_retries 0 cache now
  | none => probeGo cfg env url now cfg.vice_url_check_retries 0 cache now

/-- Python truthiness of an optional string (`if subdomain:` /
`if not external_id:` in the source): `None` and the empty string are falsy. -/
def pyTruthy : Option String → Bool
  | none => false
  | some s => !s.isEmpty

/-- Outcome of the external-id lookup
`app_exposer_client.get_external_id(UUID(analysis_id))` together with the
`.get("external_id")` access: either a response dictionary whose
`external_id` field may be absent, or an exception (any failure, including a
malformed UUID or a not-found response). -/
inductive ExtIdResult where
  | ok (external_id : Option String)
  | err (msg : String)
deriving DecidableEq, Repr

/-- Outcome of one `app_exposer_client.get_async_data(external_id)` call as
discriminated by the resolver's handlers: a response dictionary whose
`subdomain` field may be absent, an `httpx.HTTPStatusError` carrying a status
code, or any other exception. -/
inductive AsyncDataOutcome where
  | ok (subdomain : Option String)
  | httpStatusErr (status_code : Nat)
  | otherErr (msg : String)
deriving DecidableEq, Repr

/-- Oracle for the resolver's network interactions: the external-id lookup
outcome and, for each retry-loop attempt index, the async-data outcome. -/
structure ResolverEnv where
  external_id : ExtIdResult
  async_data : Nat → AsyncDataOutcome

/-- Everything observable about one `get_analysis_subdomain` invocation: the
returned subdomain (or `none`), the number of external-id lookups issued, the
number of async-data calls issued, and the sleep durations in order (each one
is `retry_delay`). -/
structure ResolveRun where
  subdomain : Option String
  extIdCalls : Nat
  asyncCalls : Nat
  sleeps : List Int
deriving DecidableEq, Repr

/-- The retry loop `for attempt in range(max_retries)` of
`get_analysis_subdomain` (apps.py lines 161-183).  `fuel` counts remaining
iterations, `attempt` is the loop index.  A truthy subdomain returns
immediately; a falsy subdomain just continues (no sleep); a 404
`HTTPStatusError` with attempts remaining sleeps `retry_delay` and continues;
any other failure (non-404 status error, 404 on the last attempt, or any
other exception) breaks out of the loop, and the function then returns
`None`.  The `fuel = 0` case is normal loop exhaustion followed by the final
`return None`. -/
def resolveGo (env : ResolverEnv) (max_retries : Nat) (retry_delay : Int) :
    Nat → Nat → ResolveRun
  | 0, _ => ⟨none, 0, 0, []⟩
  | fuel + 1, attempt =>
    match env.async_data attempt with
    | .ok sd =>
      if pyTruthy sd then ⟨sd, 0, 1, []⟩
      else
        let run := resolveGo env max_retries retry_delay fuel (attempt + 1)
        ⟨run.subdomain, 0, run.asyncCalls + 1, run.sleeps⟩
    | .httpStatusErr status =>
      if status = 404 ∧ attempt < max_retries - 1 then
        let run := resolveGo env max_retries retry_delay fuel (attempt + 1)
        ⟨run.subdomain, 0, run.asyncCalls + 1, retry_delay :: run.sleeps⟩
      else ⟨none, 0, 1, []⟩
    | .otherErr _ => ⟨none, 0, 1, []⟩

/-- The Subdomain Resolver `get_analysis_subdomain` (apps.py lines 128-189):
one external-id lookup whose failure, for any reason, returns `None`
immediately (the whole body sits in a `try` whose handler returns `None`); a
falsy external id returns `None`; otherwise the bounded retry loop runs.  The
source defaults are `max_retries = 5`, `retry_delay = 1.0` seconds (1000
milliseconds here). -/
def get_analysis_subdomain (env : ResolverEnv) (max_retries : Nat)
    (retry_delay : Int) : ResolveRun :=
  match env.external_id with
  | .err _ => ⟨none, 1, 0, []⟩
  | .ok eid =>
    if pyTruthy eid then
      let run := resolveGo env max_retries retry_delay max_retries 0
      ⟨run.subdomain, 1, run.asyncCalls, run.sleeps⟩
    else ⟨none, 1, 0, []⟩

/-- The analysis record returned by `apps_client.get_analysis`: the fields the
backend may populate.  `get_app_status` only ever reads `status` (via
`analysis.get("status", "Unknown")`); the `subdomain` field models a record
that already carries a subdomain directly. -/
structure AnalysisRecord where
  status : Option String
  subdomain : Option String
deriving DecidableEq, Repr

/-- Outcome of the job-record fetch `apps_client.get_analysis(...)`: a record
or an exception, which propagates to the caller. -/
inductive FetchOutcome where
  | ok (record : AnalysisRecord)
  | err (msg : String)
deriving DecidableEq, Repr

/-- Oracle for one `get_app_status` request: job-record fetch outcome plus the
resolver and prober oracles. -/
structure StatusEnv where
  analysis : FetchOutcome
  resolver : ResolverEnv
  probe : ProbeEnv

/-- The response dictionary assembled by `get_app_status`: `analysis_id`,
`status`, `url_ready`, plus `url` only when a subdomain was obtained and
`url_check_details` only when the details dictionary is non-empty (it is
populated exactly when a probe ran). -/
structure StatusResult where
  analysis_id : String
  status : String
  url_ready : Bool
  url : Option String
  url_check_details : Option Details
deriving DecidableEq, Repr

/-- Outcome of the whole status request: a response, or the propagated
job-record-fetch failure. -/
inductive StatusOutcome where
  | ok (result : StatusResult)
  | httpError (msg : String)
deriving DecidableEq, Repr

/-- Everything observable about one `get_app_status` request: its outcome,
whether the resolver was invoked, the resolver and probe runs when they
happened, and the cache state afterwards. -/
structure StatusRun where
  result : StatusOutcome
  resolverInvoked : Bool
  resolveRun : Option ResolveRun
  probeRun : Option ProbeRun
  cache : Cache
deriving DecidableEq, Repr

/-- The Status Aggregator `get_app_status` (apps.py lines 848-900), modelled
after request validation with both clients configured: fetch the analysis
record (its failure propagates), then unconditionally invoke the resolver
with the source defaults, then, if a subdomain was obtained, build
`https://{subdomain}{config.vice_domain}` and probe it.  `url` is included
exactly when the subdomain is truthy and `url_check_details` exactly when the
details dictionary is non-empty, which holds for every dictionary the prober
returns. -/
def get_app_status (cfg : Config) (env : StatusEnv) (cache : Cache)
    (now : Int) (analysis_id : String) : StatusRun :=
  match env.analysis with
  | .err m => ⟨.httpError m, false, none, none, cache⟩
  | .ok record =>
    let rrun := get_analysis_subdomain env.resolver 5 1000
    if pyTruthy rrun.subdomain then
      let url := "https://" ++ rrun.subdomain.getD "" ++ cfg.vice_domain
      let prun := check_vice_url_ready cfg env.probe cache now url
      ⟨.ok ⟨analysis_id, record.status.getD "Unknown", prun.ready,
          some url, some prun.details⟩,
        true, some rrun, some prun, prun.cache⟩
    else
      ⟨.ok ⟨analysis_id, record.status.getD "Unknown", false, none, none⟩,
        true, some rrun, none, cache⟩

/-- Concrete configuration for exercising the aggregator: TTL 10 s, 3 probe
retries, 5 s probe timeout, domain suffix `.cyverse.run`. -/
def c1Cfg : Config := ⟨10000, 3, 5000, ".cyverse.run"⟩

/-- Concrete request in which the fetched analysis record already carries a
subdomain (`direct`) while the resolver chain yields a different one
(`resolved`) and the probe target answers 200. -/
def c1Env : StatusEnv :=
  ⟨.ok ⟨some "Running", some "direct"⟩,
    ⟨.ok (some "eid"), fun _ => .ok (some "resolved")⟩,
    ⟨fun _ => .response 200, fun _ => .response 200, fun _ => .response 200, fun _ => 5⟩⟩

/-- Concrete prober configuration: TTL 10 s, 3 retries, 5 s timeout. -/
def c2Cfg : Config := ⟨10000, 3, 5000, ""⟩

/-- Concrete probe oracle that would answer 200 immediately. -/
def c2Env : ProbeEnv :=
  ⟨fun _ => .response 200, fun _ => .response 200, fun _ => .response 200, fun _ => 5⟩

/-- A cache entry written at time 100 for URL `u`. -/
def c2Entry : CacheEntry := ⟨100, true, .success 200 5 1⟩

/-- A cache holding `c2Entry` under URL `u`. -/
def c2Cache : Cache := [("u", c2Entry)]

/-- Concrete configuration for the aggregator-resilience scenario. -/
def c3Cfg : Config := ⟨10000, 3, 5000, ".cyverse.run"⟩

/-- Concrete request whose job-record fetch succeeds while the resolver's
external-id lookup raises. -/
def c3Env : StatusEnv :=
  ⟨.ok ⟨some "Running", none⟩,
    ⟨.err "boom", fun _ => .otherErr "x"⟩,
    ⟨fun _ => .response 200, fun _ => .response 200, fun _ => .response 200, fun _ => 1⟩⟩

/-- Concrete configuration for the probing-failure scenario: one probe
attempt allowed. -/
def c3xCfg : Config := ⟨10000, 1, 5000, ".cyverse.run"⟩

/-- Concrete request whose job-record fetch succeeds, whose resolver yields
the subdomain `abc` immediately, and whose probe target times out on every
request. -/
def c3xEnv : StatusEnv :=
  ⟨.ok ⟨some "Running", none⟩,
    ⟨.ok (some "eid"), fun _ => .ok (some "abc")⟩,
    ⟨fun _ => .timeoutExc, fun _ => .timeoutExc, fun _ => .timeoutExc, fun _ => 7⟩⟩

/-- Concrete resolver oracle whose external-id lookup fails. -/
def c4Env : ResolverEnv := ⟨.err "boom", fun _ => .ok (some "s")⟩

/-- Concrete resolver oracle: not-found twice, then a populated subdomain on
the third attempt. -/
def c5Env : ResolverEnv :=
  ⟨.ok (some "eid"), fun i => if i < 2 then .httpStatusErr 404 else .ok (some "abc123")⟩

/-- Concrete prober configuration with 3 retries. -/
def c6Cfg : Config := ⟨10000, 3, 5000, ""⟩

/-- Concrete probe oracle in which every HEAD and GET times out. -/
def c6Env : ProbeEnv :=
  ⟨fun _ => .timeoutExc, fun _ => .timeoutExc, fun _ => .timeoutExc, fun _ => 7⟩

/-- Concrete prober configuration with 3 retries. -/
def c7Cfg : Config := ⟨10000, 3, 5000, ""⟩

/-- Concrete probe oracle: HEAD answers 405, the fallback GET answers 200. -/
def c7Env : ProbeEnv :=
  ⟨fun _ => .response 405, fun _ => .response 200, fun _ => .response 500, fun _ => 12⟩

/-- Concrete prober configuration with a single allowed attempt. -/
def c8Cfg : Config := ⟨10000, 1, 5000, ""⟩

/-- Concrete probe oracle in which every request times out and each attempt
consumes 7 ms of wall-clock time. -/
def c8Env : ProbeEnv :=
  ⟨fun _ => .timeoutExc, fun _ => .timeoutExc, fun _ => .timeoutExc, fun _ => 7⟩

/-- Concrete resolver oracle: two successful async-data calls with an absent
and then an empty subdomain, then a populated one on the third attempt. -/
def c9Env : ResolverEnv :=
  ⟨.ok (some "eid"),
    fun i => if i = 0 then .ok none else if i = 1 then .ok (some "") else .ok (some "abc")⟩

/-- Concrete prober configuration with a retry count of zero. -/
def c10Cfg : Config := ⟨10000, 0, 5000, ""⟩

/-- Concrete probe oracle for the zero-retries scenario. -/
def c10Env : ProbeEnv :=
  ⟨fun _ => .response 200, fun _ => .response 200, fun _ => .response 200, fun _ => 3⟩

/-- Every path of the attempt loop that returns writes exactly one cache
entry, keyed by the probed URL and stamped with the `current_time` captured
at function entry; the rest of the cache is passed through untouched. -/
theorem probeGo_cache (cfg : Config) (env : ProbeEnv) (url : String) (entryTime : Int) :
    ∀ fuel attempt cache clock,
      (probeGo cfg env url entryTime fuel attempt cache clock).cache =
        cacheInsert cache url
          ⟨entryTime, (probeGo cfg env url entryTime fuel attempt cache clock).ready,
            (probeGo cfg env url entryTime fuel attempt cache clock).details⟩ := by
  intro fuel
  induction fuel with
  | zero => intro attempt cache clock; rfl
  | succ f ih =>
    intro attempt cache clock
    simp only [probeGo]
    split
    · rfl
    · split
      · exact ih (attempt + 1) cache _
      · rfl

/-- As long as the loop index plus the remaining iteration count equals the
configured retry count and at least one iteration remains, the attempt loop
returns from inside an iteration: its result never carries the fallthrough
`max_retries_exceeded` details. -/
theorem probeGo_ne_maxRetries (cfg : Config) (env : ProbeEnv) (url : String)
    (entryTime : Int) :
    ∀ fuel attempt cache clock,
      attempt + fuel = cfg.vice_url_check_retries → 1 ≤ fuel →
      ∀ m, (probeGo cfg env url entryTime fuel attempt cache clock).details ≠
        Details.maxRetriesExceeded m := by
  intro fuel
  induction fuel with
  | zero => intro attempt cache clock _ h1; omega
  | succ f ih =>
    intro attempt cache clock hsum _ m
    simp only [probeGo]
    split
    · simp
    · next e _ =>
      split
      · next hlt => exact ih (attempt + 1) cache _ (by omega) (by omega) m
      · cases e <;> simp [excDetails]

/-- A run of the attempt loop in which every remaining attempt raises ends
not ready, with the details built from the exception of the last allowed
attempt, and sleeps exactly the exponential-backoff series
`500 * 2 ^ i` milliseconds for each non-final attempt index `i`. -/
theorem probeGo_all_fail (cfg : Config) (env : ProbeEnv) (url : String)
    (entryTime : Int) (excF : Nat → Exc) :
    ∀ fuel attempt cache clock,
      (∀ i, attempt ≤ i → i < cfg.vice_url_check_retries →
        (attemptEval (env.head i) (env.get1 i) (env.get2 i)).1 = .exc (excF i)) →
      attempt + fuel = cfg.vice_url_check_retries → 1 ≤ fuel →
      (probeGo cfg env url entryTime fuel attempt cache clock).ready = false ∧
      (probeGo cfg env url entryTime fuel attempt cache clock).details =
        excDetails cfg (excF (cfg.vice_url_check_retries - 1))
          cfg.vice_url_check_retries ∧
      (probeGo cfg env url entryTime fuel attempt cache clock).sleeps =
        (List.range (fuel - 1)).map (fun j => (500 * 2 ^ (attempt + j) : Int)) := by
  intro fuel
  induction fuel with
  | zero => intro attempt cache clock _ _ h1; omega
  | succ f ih =>
    intro attempt cache clock hexc hsum _
    have hfail := hexc attempt (Nat.le_refl _) (by omega)
    simp only [probeGo, hfail]
    cases f with
    | zero =>
      have hlast : ¬ attempt < cfg.vice_url_check_retries - 1 := by omega
      rw [if_neg hlast]
      refine ⟨rfl, ?_, by simp⟩
      rw [show cfg.vice_url_check_retries - 1 = attempt from by omega,
        show cfg.vice_url_check_retries = attempt + 1 from by omega]
    | succ f2 =>
      have hlt : attempt < cfg.vice_url_check_retries - 1 := by omega
      rw [if_pos hlt]
      have hrec := ih (attempt + 1) cache
        (clock + env.attemptDur attempt + 500 * 2 ^ attempt)
        (fun i hi hi2 => hexc i (by omega) hi2) (by omega) (by omega)
      refine ⟨hrec.1, hrec.2.1, ?_⟩
      show (500 * 2 ^ attempt : Int) ::
          (probeGo cfg env url entryTime (f2 + 1) (attempt + 1) cache
            (clock + env.attemptDur attempt + 500 * 2 ^ attempt)).sleeps = _
      rw [hrec.2.2]
      simp only [Nat.add_sub_cancel]
      rw [List.range_succ_eq_map, List.map_cons, List.map_map]
      refine congrArg₂ List.cons (by simp) (List.map_congr_left fun j _ => ?_)
      simp only [Function.comp_apply]
      have hj : attempt + 1 + j = attempt + j.succ := by omega
      rw [hj]

/-- Retry loop, success case: after `k` not-found responses, a response with
a truthy subdomain at relative attempt `k` returns that subdomain with
`k + 1` calls and one `retry_delay` sleep per preceding not-found. -/
theorem resolveGo_notfound_then_found (env : ResolverEnv) (n : Nat) (d : Int) :
    ∀ (k fuel attempt : Nat) (sd : Option String),
      (∀ i, i < k → env.async_data (attempt + i) = .httpStatusErr 404) →
      env.async_data (attempt + k) = .ok sd → pyTruthy sd = true →
      k < fuel → attempt + fuel = n →
      resolveGo env n d fuel attempt = ⟨sd, 0, k + 1, List.replicate k d⟩ := by
  intro k
  induction k with
  | zero =>
    intro fuel attempt sd _ hok ht hk hsum
    obtain ⟨f, rfl⟩ : ∃ f, fuel = f + 1 := ⟨fuel - 1, by omega⟩
    rw [Nat.add_zero] at hok
    simp only [resolveGo, hok, ht]
    rfl
  | succ k ihk =>
    intro fuel attempt sd hpre hok ht hk hsum
    obtain ⟨f, rfl⟩ : ∃ f, fuel = f + 1 := ⟨fuel - 1, by omega⟩
    have h0 : env.async_data attempt = .httpStatusErr 404 := by
      have h := hpre 0 (by omega)
      rwa [Nat.add_zero] at h
    simp only [resolveGo, h0]
    rw [if_pos ⟨by trivial, by omega⟩]
    have hrec := ihk f (attempt + 1) sd
      (fun i hi => by
        have h := hpre (i + 1) (by omega)
        rwa [show attempt + (i + 1) = attempt + 1 + i from by omega] at h)
      (by rwa [show attempt + 1 + k = attempt + (k + 1) from by omega])
      ht (by omega) (by omega)
    rw [hrec]
    simp [List.replicate_succ]

/-- Retry loop, exhaustion case: when every remaining attempt returns
not-found, the loop makes one call per remaining iteration, sleeps after
every iteration but the last, and the function falls through to `None`. -/
theorem resolveGo_notfound_all (env : ResolverEnv) (n : Nat) (d : Int) :
    ∀ (fuel attempt : Nat),
      (∀ i, attempt ≤ i → i < n → env.async_data i = .httpStatusErr 404) →
      attempt + fuel = n →
      resolveGo env n d fuel attempt = ⟨none, 0, fuel, List.replicate (fuel - 1) d⟩ := by
  intro fuel
  induction fuel with
  | zero => intro attempt _ _; rfl
  | succ f ih =>
    intro attempt h404 hsum
    have h0 : env.async_data attempt = .httpStatusErr 404 :=
      h404 attempt (Nat.le_refl _) (by omega)
    simp only [resolveGo, h0]
    cases f with
    | zero =>
      rw [if_neg (fun hc => absurd hc.2 (by omega))]
      rfl
    | succ f2 =>
      rw [if_pos ⟨by trivial, by omega⟩]
      have hrec := ih (attempt + 1) (fun i hi hi2 => h404 i (by omega) hi2) (by omega)
      rw [hrec]
      simp [List.replicate_succ]

/-- Retry loop, hard-failure case: after `k` not-found responses, a failure
at relative attempt `k` that is not a retryable not-found (a non-404 status
error, or any other exception) breaks out of the loop and the function
returns `None` after `k + 1` calls and `k` sleeps. -/
theorem resolveGo_notfound_then_error (env : ResolverEnv) (n : Nat) (d : Int) :
    ∀ (k fuel attempt : Nat),
      (∀ i, i < k → env.async_data (attempt + i) = .httpStatusErr 404) →
      ((∃ m, env.async_data (attempt + k) = .otherErr m) ∨
        (∃ s, env.async_data (attempt + k) = .httpStatusErr s ∧ s ≠ 404)) →
      k < fuel → attempt + fuel = n →
      resolveGo env n d fuel attempt = ⟨none, 0, k + 1, List.replicate k d⟩ := by
  intro k
  induction k with
  | zero =>
    intro fuel attempt _ hbad hk hsum
    obtain ⟨f, rfl⟩ : ∃ f, fuel = f + 1 := ⟨fuel - 1, by omega⟩
    rcases hbad with ⟨m, hm⟩ | ⟨s, hs, hs404⟩
    · rw [Nat.add_zero] at hm
      simp only [resolveGo, hm]
      rfl
    · rw [Nat.add_zero] at hs
      simp only [resolveGo, hs]
      rw [if_neg (fun hc => hs404 hc.1)]
      rfl
  | succ k ihk =>
    intro fuel attempt hpre hbad hk hsum
    obtain ⟨f, rfl⟩ : ∃ f, fuel = f + 1 := ⟨fuel - 1, by omega⟩
    have h0 : env.async_data attempt = .httpStatusErr 404 := by
      have h := hpre 0 (by omega)
      rwa [Nat.add_zero] at h
    simp only [resolveGo, h0]
    rw [if_pos ⟨by trivial, by omega⟩]
    have hrec := ihk f (attempt + 1)
      (fun i hi => by
        have h := hpre (i + 1) (by omega)
        rwa [show attempt + (i + 1) = attempt + 1 + i from by omega] at h)
      (by rwa [show attempt + (k + 1) = attempt + 1 + k from by omega] at hbad)
      (by omega) (by omega)
    rw [hrec]
    simp [List.replicate_succ]

/-- Retry loop, empty-success case: a successful call whose subdomain field
is absent or empty just moves to the next attempt, with no sleep; when every
remaining attempt is like that, the loop exhausts with one call per
iteration and zero sleeps. -/
theorem resolveGo_empty_all (env : ResolverEnv) (n : Nat) (d : Int) :
    ∀ (fuel attempt : Nat),
      (∀ i, i < fuel → ∃ e, env.async_data (attempt + i) = .ok e ∧ pyTruthy e = false) →
      resolveGo env n d fuel attempt = ⟨none, 0, fuel, []⟩ := by
  intro fuel
  induction fuel with
  | zero => intro attempt _; rfl
  | succ f ih =>
    intro attempt hempty
    obtain ⟨e, he, hef⟩ := hempty 0 (by omega)
    rw [Nat.add_zero] at he
    simp only [resolveGo, he, hef]
    have hrec := ih (attempt + 1) (fun i hi => by
      obtain ⟨e2, he2, hef2⟩ := hempty (i + 1) (by omega)
      exact ⟨e2, by rwa [show attempt + (i + 1) = attempt + 1 + i from by omega] at he2, hef2⟩)
    rw [hrec]
    simp

/-- Retry loop, success after empty successes: after `k` successful calls
with a falsy subdomain, a truthy subdomain at relative attempt `k` is
returned with `k + 1` calls and zero sleeps. -/
theorem resolveGo_empty_then_found (env : ResolverEnv) (n : Nat) (d : Int) :
    ∀ (k fuel attempt : Nat) (sd : Option String),
      (∀ i, i < k → ∃ e, env.async_data (attempt + i) = .ok e ∧ pyTruthy e = false) →
      env.async_data (attempt + k) = .ok sd → pyTruthy sd = true →
      k < fuel →
      resolveGo env n d fuel attempt = ⟨sd, 0, k + 1, []⟩ := by
  intro k
  induction k with
  | zero =>
    intro fuel attempt sd _ hok ht hk
    obtain ⟨f, rfl⟩ : ∃ f, fuel = f + 1 := ⟨fuel - 1, by omega⟩
    rw [Nat.add_zero] at hok
    simp only [resolveGo, hok, ht]
    rfl
  | succ k ihk =>
    intro fuel attempt sd hpre hok ht hk
    obtain ⟨f, rfl⟩ : ∃ f, fuel = f + 1 := ⟨fuel - 1, by omega⟩
    obtain ⟨e, he, hef⟩ := hpre 0 (by omega)
    rw [Nat.add_zero] at he
    simp only [resolveGo, he, hef]
    have hrec := ihk f (attempt + 1) sd
      (fun i hi => by
        obtain ⟨e2, he2, hef2⟩ := hpre (i + 1) (by omega)
        exact ⟨e2, by rwa [show attempt + (i + 1) = attempt + 1 + i from by omega] at he2, hef2⟩)
      (by rwa [show attempt + 1 + k = attempt + (k + 1) from by omega])
      ht (by omega)
    rw [hrec]
    simp

/-- C2: if the cache holds an entry for the URL whose age `now - timestamp`
is strictly below the configured TTL, `check_vice_url_ready` returns that
entry's `(ready, details)` pair verbatim, with no network call, no sleep and
no cache mutation; if the entry's age is at or above the TTL it is never
returned: the call performs a fresh probe, identical to a cache miss. -/
theorem c2_cache_ttl (cfg : Config) (env : ProbeEnv) (cache : Cache) (now : Int)
    (url : String) (entry : CacheEntry)
    (h : cacheLookup cache url = some entry) :
    (now - entry.timestamp < cfg.vice_url_check_cache_ttl →
      check_vice_url_ready cfg env cache now url =
        ⟨entry.ready, entry.details, cache, 0, [], now⟩) ∧
    (cfg.vice_url_check_cache_ttl ≤ now - entry.timestamp →
      check_vice_url_ready cfg env cache now url =
        probeGo cfg env url now cfg.vice_url_check_retries 0 cache now) := by
  constructor
  · intro hfresh
    simp only [check_vice_url_ready, h]
    rw [if_pos hfresh]
  · intro hstale
    simp only [check_vice_url_ready, h]
    rw [if_neg (not_lt.mpr hstale)]

/-- C2 witness: a second lookup 50 ms after a cached probe returns the cached
pair with zero network calls. -/
theorem c2_witness :
    check_vice_url_ready c2Cfg c2Env c2Cache 150 "u" =
      ⟨c2Entry.ready, c2Entry.details, c2Cache, 0, [], 150⟩ :=
  (c2_cache_ttl c2Cfg c2Env c2Cache 150 "u" c2Entry (by decide)).1 (by decide)

/-- C4: when the external-id lookup fails for any reason, or succeeds without
a truthy external id, `get_analysis_subdomain` returns `None` immediately,
with a single (non-retried) external-id lookup, zero async-metadata calls and
zero sleeps. -/
theorem c4_external_id_short_circuit (env : ResolverEnv) (n : Nat) (d : Int) :
    (∀ m, env.external_id = .err m →
      get_analysis_subdomain env n d = ⟨none, 1, 0, []⟩) ∧
    (∀ eid, env.external_id = .ok eid → pyTruthy eid = false →
      get_analysis_subdomain env n d = ⟨none, 1, 0, []⟩) := by
  constructor
  · intro m h
    simp only [get_analysis_subdomain, h]
  · intro eid h hf
    simp only [get_analysis_subdomain, h, hf]
    rfl

/-- C4 witness: a failed external-id lookup yields `None` with zero
async-metadata calls. -/
theorem c4_witness : get_analysis_subdomain c4Env 5 1000 = ⟨none, 1, 0, []⟩ :=
  (c4_external_id_short_circuit c4Env 5 1000).1 "boom" rfl

/-- C8 counterexample: with one allowed attempt that times out after 7 ms,
the terminal outcome is recorded at wall-clock 1007 but the cache entry
stores timestamp 1000 — the `current_time` captured at function entry, an
earlier time — so the stored timestamp is not the time at which the terminal
outcome is recorded. -/
theorem c8_counterexample :
    (check_vice_url_ready c8Cfg c8Env [] 1000 "u").endTime = 1007 ∧
    cacheLookup (check_vice_url_ready c8Cfg c8Env [] 1000 "u").cache "u" =
      some ⟨1000, false, Details.timeoutErr 5000 1⟩ ∧
    (1000 : Int) ≠ 1007 := by
  refine ⟨rfl, rfl, by decide⟩

/-- C8 (amended): every terminal outcome of a cache-missing (or stale-entry)
call writes exactly one cache entry, keyed by the probed URL, overwriting any
prior entry, and the rest of the cache is untouched — this is the only
mutation path (a fresh cache hit leaves the cache unchanged) — but the stored
timestamp is the `current_time` captured at entry to `check_vice_url_ready`,
not the (possibly later) time at which the terminal outcome is recorded. -/
theorem c8_cache_write_semantics (cfg : Config) (env : ProbeEnv) (cache : Cache)
    (now : Int) (url : String) :
    (∀ entry, cacheLookup cache url = some entry →
      now - entry.timestamp < cfg.vice_url_check_cache_ttl →
      (check_vice_url_ready cfg env cache now url).cache = cache) ∧
    ((cacheLookup cache url = none ∨
        ∃ entry, cacheLookup cache url = some entry ∧
          cfg.vice_url_check_cache_ttl ≤ now - entry.timestamp) →
      (check_vice_url_ready cfg env cache now url).cache =
        cacheInsert cache url
          ⟨now, (check_vice_url_ready cfg env cache now url).ready,
            (check_vice_url_ready cfg env cache now url).details⟩) := by
  constructor
  · intro entry h hf
    simp only [check_vice_url_ready, h]
    rw [if_pos hf]
  · intro h
    rcases h with h | ⟨entry, h, hs⟩
    · simp only [check_vice_url_ready, h]
      exact probeGo_cache cfg env url now _ 0 cache now
    · simp only [check_vice_url_ready, h]
      rw [if_neg (not_lt.mpr hs)]
      exact probeGo_cache cfg env url now _ 0 cache now

/-- C8 witness: a probe on an empty cache writes exactly the single entry
keyed by the URL, stamped with the entry-time 1000. -/
theorem c8_witness :
    (check_vice_url_ready c8Cfg c8Env [] 1000 "u").cache =
      cacheInsert [] "u"
        ⟨1000, (check_vice_url_ready c8Cfg c8Env [] 1000 "u").ready,
          (check_vice_url_ready c8Cfg c8Env [] 1000 "u").details⟩ :=
  (c8_cache_write_semantics c8Cfg c8Env [] 1000 "u").2 (Or.inl rfl)

/-- C10: with a configured retry count of zero, a cache-missing call takes
the trailing fallthrough branch: it returns `ready=False` with details
`error="max_retries_exceeded"`, performs no network call, and caches the
result; with a retry count of at least one, every cache-missing call returns
from within the attempt loop, so its details are never the fallthrough's
`max_retries_exceeded` shape. -/
theorem c10_fallthrough (cfg : Config) (env : ProbeEnv) (cache : Cache)
    (now : Int) (url : String) (hmiss : cacheLookup cache url = none) :
    (cfg.vice_url_check_retries = 0 →
      check_vice_url_ready cfg env cache now url =
        ⟨false, .maxRetriesExceeded 0,
          cacheInsert cache url ⟨now, false, .maxRetriesExceeded 0⟩, 0, [], now⟩) ∧
    (1 ≤ cfg.vice_url_check_retries →
      ∀ m, (check_vice_url_ready cfg env cache now url).details ≠
        .maxRetriesExceeded m) := by
  constructor
  · intro h0
    simp only [check_vice_url_ready, hmiss, h0, probeGo]
  · intro h1 m
    simp only [check_vice_url_ready, hmiss]
    exact probeGo_ne_maxRetries cfg env url now cfg.vice_url_check_retries 0
      cache now (by omega) h1 m

/-- C10 witness: with zero retries the fallthrough result is returned and
cached, with zero network calls. -/
theorem c10_witness :
    check_vice_url_ready c10Cfg c10Env [] 50 "u" =
      ⟨false, .maxRetriesExceeded 0,
        cacheInsert [] "u" ⟨50, false, .maxRetriesExceeded 0⟩, 0, [], 50⟩ :=
  (c10_fallthrough c10Cfg c10Env [] 50 "u" rfl).1 rfl

/-- C1 counterexample: a status request whose fetched analysis record already
carries a subdomain (`direct`) still invokes the resolver, and the response
URL is built from the resolver's answer (`resolved`), not from the record's
subdomain — refuting the claim that the record's subdomain is used and the
resolver is not invoked. -/
theorem c1_counterexample :
    c1Env.analysis = .ok ⟨some "Running", some "direct"⟩ ∧
    (get_app_status c1Cfg c1Env [] 1000 "J1").resolverInvoked = true ∧
    (get_app_status c1Cfg c1Env [] 1000 "J1").result =
      .ok ⟨"J1", "Running", true, some "https://resolved.cyverse.run",
        some (.success 200 5 1)⟩ := by
  exact ⟨rfl, rfl, rfl⟩

/-- C1 (amended): whenever the job-record fetch succeeds, `get_app_status`
invokes the resolver unconditionally — regardless of any subdomain the
fetched record carries — and the record's subdomain field is never consulted:
replacing it by anything leaves the whole result unchanged. -/
theorem c1_resolver_always_invoked (cfg : Config) (env : StatusEnv)
    (cache : Cache) (now : Int) (analysis_id : String) (record : AnalysisRecord)
    (h : env.analysis = .ok record) :
    (get_app_status cfg env cache now analysis_id).resolverInvoked = true ∧
    (get_app_status cfg env cache now analysis_id).resolveRun =
      some (get_analysis_subdomain env.resolver 5 1000) ∧
    (∀ sd, get_app_status cfg ⟨.ok { record with subdomain := sd }, env.resolver, env.probe⟩
        cache now analysis_id =
      get_app_status cfg env cache now analysis_id) := by
  refine ⟨?_, ?_, ?_⟩
  · simp only [get_app_status, h]
    split <;> rfl
  · simp only [get_app_status, h]
    split <;> rfl
  · intro sd
    simp only [get_app_status, h]

/-- C1 witness: the always-invoked property at the concrete request of the
counterexample. -/
theorem c1_witness :
    (get_app_status c1Cfg c1Env [] 1000 "J1").resolverInvoked = true :=
  (c1_resolver_always_invoked c1Cfg c1Env [] 1000 "J1"
    ⟨some "Running", some "direct"⟩ rfl).1

/-- C3 counterexample: a status request with a healthy job-record fetch, a
resolver that yields the subdomain `abc`, and a probe in which every attempt
fails with a timeout (a failure raised inside URL probing) still returns a
result that carries the `url` field `https://abc.cyverse.run` alongside
`url_ready = false` — refuting the claim that such failures yield a result
with no `url` field. -/
theorem c3_counterexample :
    (get_app_status c3xCfg c3xEnv [] 0 "J1").result =
      .ok ⟨"J1", "Running", false, some "https://abc.cyverse.run",
        some (.timeoutErr 5000 1)⟩ ∧
    (some "https://abc.cyverse.run" ≠ (none : Option String)) := by
  exact ⟨rfl, by decide⟩

/-- C3 (amended): when the job-record fetch fails, that failure propagates to
the caller; when it succeeds, `get_app_status` returns a status result for
every resolver and prober behaviour whatsoever (all their failure outcomes
are absorbed).  When the resolver produced no subdomain the result has
`url_ready = false` and neither a `url` nor a `url_check_details` field;
when a subdomain was resolved, the `url` field is always present — built
from that subdomain — even when every probe attempt failed, with `url_ready`
and `url_check_details` taken from the probe run. -/
theorem c3_failures_absorbed (cfg : Config) (env : StatusEnv) (cache : Cache)
    (now : Int) (analysis_id : String) :
    (∀ m, env.analysis = .err m →
      (get_app_status cfg env cache now analysis_id).result = .httpError m) ∧
    (∀ record, env.analysis = .ok record →
      ∃ r, (get_app_status cfg env cache now analysis_id).result = .ok r ∧
        ((get_analysis_subdomain env.resolver 5 1000).subdomain = none →
          r.url_ready = false ∧ r.url = none ∧ r.url_check_details = none) ∧
        (∀ sd, (get_analysis_subdomain env.resolver 5 1000).subdomain = some sd →
          pyTruthy (some sd) = true →
          r.url = some ("https://" ++ sd ++ cfg.vice_domain) ∧
          r.url_ready = (check_vice_url_ready cfg env.probe cache now
            ("https://" ++ sd ++ cfg.vice_domain)).ready ∧
          r.url_check_details = some (check_vice_url_ready cfg env.probe cache now
            ("https://" ++ sd ++ cfg.vice_domain)).details)) := by
  constructor
  · intro m h
    simp only [get_app_status, h]
  · intro record h
    simp only [get_app_status, h]
    by_cases hsd : pyTruthy (get_analysis_subdomain env.resolver 5 1000).subdomain = true
    · rw [if_pos hsd]
      refine ⟨_, rfl, ?_, ?_⟩
      · intro hnone
        rw [hnone] at hsd
        exact absurd hsd (by decide)
      · intro sd hs _
        simp only [hs, Option.getD_some]
        exact ⟨by trivial, by trivial, by trivial⟩
    · rw [if_neg hsd]
      refine ⟨_, rfl, fun _ => ⟨rfl, rfl, rfl⟩, ?_⟩
      intro sd hs hpy
      rw [hs] at hsd
      exact absurd hpy hsd

/-- C3 witness: with a raising external-id lookup and a healthy job-record
fetch, the request still returns a result and the resolution-failure
implication applies. -/
theorem c3_witness :
    ∃ r, (get_app_status c3Cfg c3Env [] 0 "J1").result = .ok r ∧
      ((get_analysis_subdomain c3Env.resolver 5 1000).subdomain = none →
        r.url_ready = false ∧ r.url = none ∧ r.url_check_details = none) ∧
      (∀ sd, (get_analysis_subdomain c3Env.resolver 5 1000).subdomain = some sd →
        pyTruthy (some sd) = true →
        r.url = some ("https://" ++ sd ++ c3Cfg.vice_domain) ∧
        r.url_ready = (check_vice_url_ready c3Cfg c3Env.probe [] 0
          ("https://" ++ sd ++ c3Cfg.vice_domain)).ready ∧
        r.url_check_details = some (check_vice_url_ready c3Cfg c3Env.probe [] 0
          ("https://" ++ sd ++ c3Cfg.vice_domain)).details) :=
  (c3_failures_absorbed c3Cfg c3Env [] 0 "J1").2 ⟨some "Running", none⟩ rfl

/-- C5: with a truthy external id, the resolver returns the subdomain of the
first attempt whose response carries a truthy subdomain, after exactly that
many async-data calls and one `retry_delay` sleep per preceding not-found; if
all `max_retries` attempts return not-found it returns `None` after exactly
`max_retries` calls and `max_retries - 1` sleeps; and a failure other than
not-found stops the loop at once with `None`. -/
theorem c5_resolver_retry_policy (env : ResolverEnv) (n : Nat) (d : Int)
    (eid : Option String) (hx : env.external_id = .ok eid)
    (ht : pyTruthy eid = true) :
    (∀ k sd, k < n → (∀ i, i < k → env.async_data i = .httpStatusErr 404) →
      env.async_data k = .ok sd → pyTruthy sd = true →
      get_analysis_subdomain env n d = ⟨sd, 1, k + 1, List.replicate k d⟩) ∧
    ((∀ i, i < n → env.async_data i = .httpStatusErr 404) →
      get_analysis_subdomain env n d = ⟨none, 1, n, List.replicate (n - 1) d⟩) ∧
    (∀ k, k < n → (∀ i, i < k → env.async_data i = .httpStatusErr 404) →
      ((∃ m, env.async_data k = .otherErr m) ∨
        (∃ s, env.async_data k = .httpStatusErr s ∧ s ≠ 404)) →
      get_analysis_subdomain env n d = ⟨none, 1, k + 1, List.replicate k d⟩) := by
  refine ⟨?_, ?_, ?_⟩
  · intro k sd hk hpre hok htr
    have hr := resolveGo_notfound_then_found env n d k n 0 sd
      (fun i hi => by simpa using hpre i hi) (by simpa using hok) htr hk (by omega)
    simp only [get_analysis_subdomain, hx, ht, hr]
    rw [if_pos trivial]
  · intro hall
    have hr := resolveGo_notfound_all env n d n 0
      (fun i _ hi2 => hall i hi2) (by omega)
    simp only [get_analysis_subdomain, hx, ht, hr]
    rw [if_pos trivial]
  · intro k hk hpre hbad
    have hr := resolveGo_notfound_then_error env n d k n 0
      (fun i hi => by simpa using hpre i hi) (by simpa using hbad) hk (by omega)
    simp only [get_analysis_subdomain, hx, ht, hr]
    rw [if_pos trivial]

/-- C5 witness: not-found twice then success on the third of five attempts
returns the subdomain with exactly three calls and two sleeps. -/
theorem c5_witness :
    get_analysis_subdomain c5Env 5 1000 =
      ⟨some "abc123", 1, 3, List.replicate 2 1000⟩ :=
  (c5_resolver_retry_policy c5Env 5 1000 (some "eid") rfl (by decide)).1 2
    (some "abc123") (by decide) (by decide) (by decide) (by decide)

/-- C9: with a truthy external id, a successful async-data call whose
subdomain is absent or empty moves straight to the next attempt with no
sleep: if all `n` attempts succeed with a falsy subdomain the resolver
returns `None` after `n` calls and zero sleeps, and if a truthy subdomain
appears at attempt `k` after `k` falsy successes it is returned after `k + 1`
calls and zero sleeps. -/
theorem c9_empty_subdomain_no_sleep (env : ResolverEnv) (n : Nat) (d : Int)
    (eid : Option String) (hx : env.external_id = .ok eid)
    (ht : pyTruthy eid = true) :
    ((∀ i, i < n → ∃ e, env.async_data i = .ok e ∧ pyTruthy e = false) →
      get_analysis_subdomain env n d = ⟨none, 1, n, []⟩) ∧
    (∀ k sd, k < n →
      (∀ i, i < k → ∃ e, env.async_data i = .ok e ∧ pyTruthy e = false) →
      env.async_data k = .ok sd → pyTruthy sd = true →
      get_analysis_subdomain env n d = ⟨sd, 1, k + 1, []⟩) := by
  constructor
  · intro hall
    have hr := resolveGo_empty_all env n d n 0
      (fun i hi => by simpa using hall i hi)
    simp only [get_analysis_subdomain, hx, ht, hr]
    rw [if_pos trivial]
  · intro k sd hk hpre hok htr
    have hr := resolveGo_empty_then_found env n d k n 0 sd
      (fun i hi => by simpa using hpre i hi) (by simpa using hok) htr hk
    simp only [get_analysis_subdomain, hx, ht, hr]
    rw [if_pos trivial]

/-- C9 witness: an absent then an empty subdomain are skipped without
sleeping and the truthy subdomain of attempt three is returned. -/
theorem c9_witness :
    get_analysis_subdomain c9Env 5 1000 = ⟨some "abc", 1, 3, []⟩ :=
  (c9_empty_subdomain_no_sleep c9Env 5 1000 (some "eid") rfl (by decide)).2 2
    (some "abc")
    (by decide)
    (by
      intro i hi
      interval_cases i
      · exact ⟨none, rfl, rfl⟩
      · exact ⟨some "", rfl, by decide⟩)
    (by decide) (by decide)

/-- C6: on a cache miss in which every attempt raises (timeout or any other
exception), each attempt that is not the last sleeps exactly
`500 * 2 ^ attempt_index` milliseconds before the next one — the backoff
series 500 ms, 1000 ms, 2000 ms, … — and the call ends not ready; in
particular with 3 retries and every request timing out, the inter-attempt
sleeps are exactly 500 ms and 1000 ms (1.5 s in total) and the result is
`ready = false` with details carrying `error = "timeout"`, the configured
`timeout_seconds` and `attempt = 3`. -/
theorem c6_backoff (cfg : Config) (env : ProbeEnv) (cache : Cache) (now : Int)
    (url : String) (hmiss : cacheLookup cache url = none) :
    (∀ excF : Nat → Exc,
      (∀ i, i < cfg.vice_url_check_retries →
        (attemptEval (env.head i) (env.get1 i) (env.get2 i)).1 = .exc (excF i)) →
      1 ≤ cfg.vice_url_check_retries →
      (check_vice_url_ready cfg env cache now url).sleeps =
        (List.range (cfg.vice_url_check_retries - 1)).map
          (fun i => (500 * 2 ^ i : Int)) ∧
      (check_vice_url_ready cfg env cache now url).ready = false) ∧
    (cfg.vice_url_check_retries = 3 →
      (∀ i, env.head i = .timeoutExc) → (∀ i, env.get1 i = .timeoutExc) →
      (check_vice_url_ready cfg env cache now url).sleeps = [500, 1000] ∧
      (check_vice_url_ready cfg env cache now url).sleeps.sum = 1500 ∧
      (check_vice_url_ready cfg env cache now url).ready = false ∧
      (check_vice_url_ready cfg env cache now url).details =
        .timeoutErr cfg.vice_url_check_timeout 3 ∧
      (check_vice_url_ready cfg env cache now url).details.errorField =
        some "timeout" ∧
      (check_vice_url_ready cfg env cache now url).details.attemptField =
        some 3) := by
  constructor
  · intro excF hexc h1
    simp only [check_vice_url_ready, hmiss]
    have hall := probeGo_all_fail cfg env url now excF
      cfg.vice_url_check_retries 0 cache now
      (fun i _ hi2 => hexc i hi2) (by omega) h1
    refine ⟨?_, hall.1⟩
    rw [hall.2.2]
    exact List.map_congr_left fun j _ => by rw [Nat.zero_add]
  · intro h3 hh hg
    have hexc : ∀ i, i < cfg.vice_url_check_retries →
        (attemptEval (env.head i) (env.get1 i) (env.get2 i)).1 =
          .exc ((fun _ => Exc.timeout) i) := by
      intro i _
      rw [hh i, hg i]
      rfl
    simp only [check_vice_url_ready, hmiss]
    have hall := probeGo_all_fail cfg env url now (fun _ => Exc.timeout)
      cfg.vice_url_check_retries 0 cache now
      (fun i _ hi2 => hexc i hi2) (by omega) (by omega)
    have hs : (probeGo cfg env url now cfg.vice_url_check_retries
        0 cache now).sleeps = [500, 1000] := by
      rw [hall.2.2, h3]
      decide
    refine ⟨hs, by rw [hs]; decide, hall.1, ?_, ?_, ?_⟩
    · rw [hall.2.1, h3]
      rfl
    · rw [hall.2.1]
      rfl
    · rw [hall.2.1, h3]
      rfl

/-- C6 witness: three retries against an always-timing-out target sleep
500 ms then 1000 ms (1.5 s total) and end not ready with timeout details for
attempt 3. -/
theorem c6_witness :
    (check_vice_url_ready c6Cfg c6Env [] 0 "u").sleeps = [500, 1000] ∧
    (check_vice_url_ready c6Cfg c6Env [] 0 "u").sleeps.sum = 1500 ∧
    (check_vice_url_ready c6Cfg c6Env [] 0 "u").ready = false ∧
    (check_vice_url_ready c6Cfg c6Env [] 0 "u").details =
      .timeoutErr c6Cfg.vice_url_check_timeout 3 ∧
    (check_vice_url_ready c6Cfg c6Env [] 0 "u").details.errorField =
      some "timeout" ∧
    (check_vice_url_ready c6Cfg c6Env [] 0 "u").details.attemptField = some 3 :=
  (c6_backoff c6Cfg c6Env [] 0 "u" rfl).2 rfl (fun _ => rfl) (fun _ => rfl)

/-- C7: a HEAD response of 404 or 405 triggers a GET on the same URL whose
response, when it yields one, is the attempt's final response; a HEAD failure
for a non-connection reason (timeout or other exception) likewise substitutes
the GET's outcome for the attempt; a connection-establishment failure of HEAD
is not substituted with a GET and propagates as the attempt's exception; and
when the first attempt yields a final response with status `s`, the call is
ready exactly when `200 ≤ s < 400`, with `s` recorded in the details. -/
theorem c7_head_get_fallback (cfg : Config) (env : ProbeEnv) (cache : Cache)
    (now : Int) (url : String) :
    (∀ s g1 g2, s = 404 ∨ s = 405 →
      2 ≤ (attemptEval (.response s) g1 g2).2 ∧
      ∀ s1, g1 = .response s1 → (attemptEval (.response s) g1 g2).1 = .ok s1) ∧
    (∀ g1 g2, attemptEval .timeoutExc g1 g2 = (getResult g1, 2) ∧
      ∀ m t, attemptEval (.otherExc m t) g1 g2 = (getResult g1, 2)) ∧
    (∀ m g1 g2, attemptEval (.connectError m) g1 g2 = (.exc (.connect m), 1)) ∧
    (∀ s, cacheLookup cache url = none → 1 ≤ cfg.vice_url_check_retries →
      (attemptEval (env.head 0) (env.get1 0) (env.get2 0)).1 = .ok s →
      (check_vice_url_ready cfg env cache now url).ready =
        (decide (200 ≤ s) && decide (s < 400)) ∧
      (check_vice_url_ready cfg env cache now url).details =
        .success s (env.attemptDur 0) 1) := by
  refine ⟨?_, ?_, ?_, ?_⟩
  · intro s g1 g2 h45
    constructor
    · simp only [attemptEval]
      rw [if_pos h45]
      cases g1 <;> simp
    · intro s1 hg1
      subst hg1
      simp only [attemptEval]
      rw [if_pos h45]
  · intro g1 g2
    exact ⟨rfl, fun m t => rfl⟩
  · intro m g1 g2
    rfl
  · intro s hm h1 hok
    obtain ⟨r, hr⟩ : ∃ r, cfg.vice_url_check_retries = r + 1 :=
      ⟨cfg.vice_url_check_retries - 1, by omega⟩
    simp only [check_vice_url_ready, hm, hr, probeGo, hok]
    exact ⟨by trivial, by trivial⟩

/-- C7 witness: a HEAD 405 followed by a GET 200 makes the attempt's final
response the GET's, and the first-attempt probe is ready with status 200
recorded. -/
theorem c7_witness :
    ((attemptEval (HttpOutcome.response 405) (.response 200) (.response 500)).1 =
      .ok 200) ∧
    ((check_vice_url_ready c7Cfg c7Env [] 0 "u").ready =
      (decide (200 ≤ 200) && decide (200 < 400))) ∧
    ((check_vice_url_ready c7Cfg c7Env [] 0 "u").details =
      .success 200 (c7Env.attemptDur 0) 1) :=
  ⟨((c7_head_get_fallback c7Cfg c7Env [] 0 "u").1 405 (.response 200)
      (.response 500) (Or.inr rfl)).2 200 rfl,
    ((c7_head_get_fallback c7Cfg c7Env [] 0 "u").2.2.2 200 rfl (by decide) rfl).1,
    ((c7_head_get_fallback c7Cfg c7Env [] 0 "u").2.2.2 200 rfl (by decide) rfl).2⟩

end Formation
